import Mathlib

/-!
Verification of the conversation-flow engine and channel-connection lifecycle
of a multi-tenant chatbot backend (NestJS/TypeScript).

The development shallowly embeds the relevant services:
* `ChatbotFlow`   — `src/chatbot/chatbot-flow.service.ts`
* `ConvMonitor`   — `src/conversation/conversation-monitor.service.ts`
* `WaService`     — `src/whatsapp/whatsapp.service.ts`
* `Baileys`       — `src/whatsapp/providers/baileys-whatsapp.provider.ts`

Stateful code is embedded as explicit state-passing functions; Prisma/transport
calls that may fail are modelled with explicit failure flags (an "oracle")
threaded through the function, and thrown exceptions as `Except Unit`.
JavaScript string primitives used by the code (`includes`, `toLowerCase`,
`startsWith`, `split`, `trim`, `parseInt`) are modelled first.
-/

/-! ## JavaScript string primitives

All of these are written by structural recursion over the character list so
that the kernel can evaluate them on concrete strings. -/

/-- `charsStartWith n h` : the char list `n` is a prefix of `h`. -/
def charsStartWith : List Char → List Char → Bool
  | [], _ => true
  | _ :: _, [] => false
  | c :: cs, d :: ds => c == d && charsStartWith cs ds

/-- `charsContain n h` : the char list `n` occurs contiguously inside `h`. -/
def charsContain (needle : List Char) : List Char → Bool
  | [] => needle.isEmpty
  | d :: ds => charsStartWith needle (d :: ds) || charsContain needle ds

/-- JavaScript `hay.includes(needle)`: substring containment. -/
def jsIncludes (hay needle : String) : Bool :=
  charsContain needle.toList hay.toList

/-- JavaScript `s.startsWith(pre)`. -/
def jsStartsWith (s pre : String) : Bool :=
  charsStartWith pre.toList s.toList

/-- Simple lower-casing of one character: the Unicode simple lowercase
mapping on the Basic Latin, Latin-1 Supplement and Latin Extended-A blocks
and on the basic Greek and Cyrillic letter ranges; identity elsewhere.
JavaScript's `toLowerCase` applies the full Unicode default mapping; the
residue left unmapped here is the rarer blocks and the few length-changing
mappings (such as U+0130, whose lowercase is two code points and which no
single-character map can represent). -/
def jsCharLower (c : Char) : Char :=
  let n := c.toNat
  if 0x41 ≤ n ∧ n ≤ 0x5A then Char.ofNat (n + 32)
  else if (0xC0 ≤ n ∧ n ≤ 0xDE) ∧ n ≠ 0xD7 then Char.ofNat (n + 32)
  else if n = 0x130 then c
  else if (0x100 ≤ n ∧ n ≤ 0x137) ∧ n % 2 = 0 then Char.ofNat (n + 1)
  else if (0x139 ≤ n ∧ n ≤ 0x148) ∧ n % 2 = 1 then Char.ofNat (n + 1)
  else if (0x14A ≤ n ∧ n ≤ 0x177) ∧ n % 2 = 0 then Char.ofNat (n + 1)
  else if n = 0x178 then Char.ofNat 0xFF
  else if (0x179 ≤ n ∧ n ≤ 0x17E) ∧ n % 2 = 1 then Char.ofNat (n + 1)
  else if (0x391 ≤ n ∧ n ≤ 0x3A9) ∧ n ≠ 0x3A2 then Char.ofNat (n + 32)
  else if 0x410 ≤ n ∧ n ≤ 0x42F then Char.ofNat (n + 32)
  else if 0x400 ≤ n ∧ n ≤ 0x40F then Char.ofNat (n + 80)
  else c

/-- JavaScript `s.toLowerCase()`. -/
def jsToLower (s : String) : String :=
  String.mk (s.toList.map jsCharLower)

/-- The whitespace set of JavaScript `trim` (ECMA-262 `TrimString`): the
Unicode White_Space characters plus the BOM. -/
def isJsSpace (c : Char) : Bool :=
  let n := c.toNat
  decide ((9 ≤ n ∧ n ≤ 13) ∨ n = 32 ∨ n = 0xA0 ∨ n = 0x1680 ∨
    (0x2000 ≤ n ∧ n ≤ 0x200A) ∨ n = 0x2028 ∨ n = 0x2029 ∨ n = 0x202F ∨
    n = 0x205F ∨ n = 0x3000 ∨ n = 0xFEFF)

/-- JavaScript `s.trim()`. -/
def jsTrim (s : String) : String :=
  String.mk (((s.toList.dropWhile isJsSpace).reverse.dropWhile isJsSpace).reverse)

/-- Split a char list on a separator character (JavaScript `split`). -/
def splitOnChar (sep : Char) : List Char → List (List Char)
  | [] => [[]]
  | c :: rest =>
    match splitOnChar sep rest with
    | [] => [[]]
    | g :: gs => if c == sep then [] :: g :: gs else (c :: g) :: gs

/-- JavaScript `s.split(sep)` for a one-character separator. -/
def jsSplit (s : String) (sep : Char) : List String :=
  (splitOnChar sep s.toList).map String.mk

/-- Drop a known prefix (JavaScript `s.replace(pre, '')` when `s` starts
with `pre`). -/
def jsDropPrefixStr (pre s : String) : String :=
  String.mk (s.toList.drop pre.toList.length)

/-- Numeric value of a list of decimal digits (most significant first). -/
def digitsVal (cs : List Char) : Nat :=
  cs.foldl (fun n c => n * 10 + (c.toNat - 48)) 0

/-- Value of a hexadecimal digit, `none` for any other character. -/
def hexDigitVal? (c : Char) : Option Nat :=
  let n := c.toNat
  if 48 ≤ n ∧ n ≤ 57 then some (n - 48)
  else if 97 ≤ n ∧ n ≤ 102 then some (n - 87)
  else if 65 ≤ n ∧ n ≤ 70 then some (n - 55)
  else none

/-- Numeric value of a list of hexadecimal digits (most significant first). -/
def hexVal (cs : List Char) : Nat :=
  cs.foldl (fun n c => n * 16 + (hexDigitVal? c).getD 0) 0

/-- The base-16 arm of `parseInt` after a `0x`/`0X` prefix: the longest
leading run of hex digits, `NaN` when there is none. -/
def parseHexTail (sign : Int) (hs : List Char) : Option Int :=
  let hexDigits := hs.takeWhile (fun c => (hexDigitVal? c).isSome)
  if hexDigits.isEmpty then none
  else some (sign * (hexVal hexDigits : Int))

/-- JavaScript `parseInt(s)` with its radix auto-detection: an optional sign,
then either a `0x`/`0X` prefix followed by the longest leading run of hex
digits, or the longest leading run of decimal digits; `none` models `NaN`.
(The flow engine applies it to the trimmed input.) -/
def parseIntJS (s : String) : Option Int :=
  let (sign, rest) : Int × List Char :=
    match s.toList with
    | '-' :: r => (-1, r)
    | '+' :: r => (1, r)
    | r => (1, r)
  match rest with
  | '0' :: 'x' :: hs => parseHexTail sign hs
  | '0' :: 'X' :: hs => parseHexTail sign hs
  | _ =>
    let digits := rest.takeWhile Char.isDigit
    if digits.isEmpty then none
    else some (sign * (digitsVal digits : Int))

deriving instance DecidableEq for Except

/-! ## Flow engine (`src/chatbot/chatbot-flow.service.ts`)

The per-tenant dialogue graph is a store of `FlowNode`s addressed by id.
Relations that Prisma's `include` preloads (an option's `connection.targetNode`,
a connection's `targetNode`) are resolved through the store; the one genuine
runtime database call of `determineNextNode` — `prisma.flowNode.findUnique`
on an option's `targetNodeId` — carries an explicit failure flag. -/

namespace ChatbotFlow

structure FlowOption where
  id : String
  text : String
  targetNodeId : Option String
  /-- `option.connection.targetNode` (legacy edge), as an id into the store. -/
  connectionTargetId : Option String
  deriving DecidableEq, Repr

structure FlowConnection where
  /-- `condition` column; `none` models SQL `NULL` (and the JS-falsy `""`). -/
  condition : Option String
  targetNodeId : Option String
  deriving DecidableEq, Repr

structure FlowNode where
  id : String
  nodeType : String
  message : String
  options : List FlowOption
  outgoingConnections : List FlowConnection
  deriving DecidableEq, Repr

structure FlowStore where
  nodes : List FlowNode
  deriving DecidableEq, Repr

def FlowStore.find? (st : FlowStore) (id : String) : Option FlowNode :=
  st.nodes.find? (fun n => n.id == id)

structure RespButton where
  id : String
  text : String
  payload : String
  deriving DecidableEq, Repr

/-- The `ChatbotResponse` shape actually used by the engine: response text,
the `type` discriminator, and the rendered option buttons. -/
structure ChatbotResponse where
  text : String
  rtype : String
  buttons : List RespButton
  deriving DecidableEq, Repr

/-- `getDefaultResponse()`. -/
def getDefaultResponse : ChatbotResponse :=
  { text := "Olá! Como posso ajudar você hoje?", rtype := "text", buttons := [] }

/-- Buttons rendered for an OPTION node: payload `option_<id>_<index+1>`. -/
def mkButtons (options : List FlowOption) : List RespButton :=
  options.enum.map (fun p =>
    { id := p.2.id, text := p.2.text,
      payload := "option_" ++ p.2.id ++ "_" ++ toString (p.1 + 1) })

/-- `processNodeMessage(node, messageText, phoneNumber)` (rendering only;
the `phoneNumber` argument is unused by every branch). -/
def processNodeMessage (node : FlowNode) : ChatbotResponse :=
  if node.nodeType == "MESSAGE" then
    { text := node.message, rtype := "text", buttons := [] }
  else if node.nodeType == "OPTION" then
    { text := node.message, rtype := "template", buttons := mkButtons node.options }
  else if node.nodeType == "INPUT" then
    { text := node.message, rtype := "text", buttons := [] }
  else if node.nodeType == "CONDITION" then
    { text := node.message, rtype := "text", buttons := [] }
  else if node.nodeType == "ACTION" then
    { text := node.message, rtype := "text", buttons := [] }
  else if node.nodeType == "ESCALATION" then
    { text := "Sua conversa foi transferida para um atendente humano. Aguarde um momento.",
      rtype := "text", buttons := [] }
  else
    { text := if node.message == "" then "Como posso ajudar?" else node.message,
      rtype := "text", buttons := [] }

/-- `evaluateCondition(condition, messageText)`. -/
def evaluateCondition (condition : Option String) (messageText : String) : Bool :=
  match condition with
  | none => true
  | some c =>
    if jsStartsWith c "contains:" then
      jsIncludes (jsToLower messageText) (jsToLower (jsDropPrefixStr "contains:" c))
    else if jsStartsWith c "equals:" then
      jsToLower messageText == jsToLower (jsDropPrefixStr "equals:" c)
    else false

/-- The option-text matcher of `determineNextNode`: case-insensitive equality,
or the option's text containing the input (one direction only). -/
def textMatches (o : FlowOption) (messageText : String) : Bool :=
  jsToLower o.text == jsToLower messageText
    || jsIncludes (jsToLower o.text) (jsToLower messageText)

/-- The `selectedOption` computation of `determineNextNode`: button payload,
then number, then text match. -/
def selectOption (options : List FlowOption) (messageText : String) :
    Option FlowOption :=
  if jsStartsWith messageText "option_" then
    let optionId := (jsSplit messageText '_').getD 1 ""
    options.find? (fun o => o.id == optionId)
  else
    match parseIntJS (jsTrim messageText) with
    | some n =>
      if 0 < n ∧ n ≤ (options.length : Int) then options.get? (n.toNat - 1)
      else options.find? (fun o => textMatches o messageText)
    | none => options.find? (fun o => textMatches o messageText)

/-- `determineNextNode(currentNode, messageText)`.  `lookupFails = true` makes
the one runtime `prisma.flowNode.findUnique` call throw. -/
def determineNextNode (st : FlowStore) (lookupFails : Bool) (node : FlowNode)
    (messageText : String) : Except Unit (Option FlowNode) :=
  -- the INPUT-conditional / default-connection tail of the function
  let afterOption : Option FlowNode :=
    let inputResult : Option FlowNode :=
      if node.nodeType == "INPUT" then
        match node.outgoingConnections.find?
            (fun c => evaluateCondition c.condition messageText) with
        | some c => c.targetNodeId.bind st.find?
        | none => none
      else none
    match inputResult with
    | some t => some t
    | none =>
      match node.outgoingConnections.find? (fun c => c.condition == none) with
      | some c => c.targetNodeId.bind st.find?
      | none => none
  -- fallback after a selected option whose direct target did not resolve
  let optionFallback : FlowOption → Option FlowNode := fun o =>
    match o.connectionTargetId.bind st.find? with
    | some t => some t
    | none => if node.options.isEmpty then afterOption else none
  if node.nodeType == "OPTION" || !node.options.isEmpty then
    match selectOption node.options messageText with
    | some o =>
      match o.targetNodeId with
      | some tid =>
        if lookupFails then .error ()
        else
          match st.find? tid with
          | some t => .ok (some t)
          | none => .ok (optionFallback o)
      | none => .ok (optionFallback o)
    | none =>
      .ok (if node.options.isEmpty then afterOption else none)
  else .ok afterOption

/-- The `conversation` row as loaded by `processMessage` (with its includes):
whether `currentFlow` resolved, and the cursor. -/
structure Conversation where
  id : String
  hasCurrentFlow : Bool
  currentNodeId : Option String
  deriving DecidableEq, Repr

/-- The persistent state `processMessage` reads and writes. -/
structure Db where
  conversation : Option Conversation
  store : FlowStore
  deriving DecidableEq, Repr

/-- Which of the engine's database calls throw in this run. -/
structure FlowOracle where
  findConvFails : Bool
  nodeLookupFails : Bool
  updateFails : Bool
  deriving DecidableEq, Repr

def noFlowFailure : FlowOracle :=
  { findConvFails := false, nodeLookupFails := false, updateFails := false }

def Db.setCursor (db : Db) (nodeId : String) : Db :=
  { db with conversation :=
      db.conversation.map (fun c => { c with currentNodeId := some nodeId }) }

def Db.cursor (db : Db) : Option String :=
  db.conversation.bind (fun c => c.currentNodeId)

/-- The `try`-block of `processMessage`: load the conversation, render the
current node, resolve the next node, auto-advance from MESSAGE into OPTION,
persist the cursor.  Returns the (possibly failed) response and the state
after whatever writes happened before the failure point. -/
def processMessageRun (db : Db) (o : FlowOracle) (messageText : String) :
    Except Unit ChatbotResponse × Db :=
  if o.findConvFails then (.error (), db)
  else
    match db.conversation with
    | none => (.ok getDefaultResponse, db)
    | some conv =>
      if !conv.hasCurrentFlow then (.ok getDefaultResponse, db)
      else
        match conv.currentNodeId.bind db.store.find? with
        | none => (.ok getDefaultResponse, db)
        | some currentNode =>
          let response := processNodeMessage currentNode
          match determineNextNode db.store o.nodeLookupFails currentNode messageText with
          | .error e => (.error e, db)
          | .ok nextNode =>
            match nextNode with
            | some nn =>
              if currentNode.nodeType == "MESSAGE" && nn.nodeType == "OPTION" then
                if o.updateFails then (.error (), db)
                else (.ok (processNodeMessage nn), db.setCursor nn.id)
              else if o.updateFails then (.error (), db)
              else (.ok response, db.setCursor nn.id)
            | none => (.ok response, db)

/-- `processMessage(conversationId, messageText, phoneNumber)`: the `try`-block
wrapped in the `catch` that falls back to the generic greeting.  Total by
construction — no exception escapes to the caller. -/
def processMessage (db : Db) (o : FlowOracle) (messageText : String) :
    ChatbotResponse × Db :=
  match processMessageRun db o messageText with
  | (.ok r, db') => (r, db')
  | (.error _, db') => (getDefaultResponse, db')

end ChatbotFlow

/-! ## Inactivity reaper (`src/conversation/conversation-monitor.service.ts`)

`checkInactiveConversations` selects ACTIVE conversations whose `updatedAt`
is older than the 2-minute threshold and closes each one: it consults channel
liveness, best-effort sends a closing message when live, and marks the
conversation FINISHED; the `catch` marks it FINISHED even when the liveness
check or the send threw.  External calls are oracles. -/

namespace ConvMonitor

structure ConvRec where
  id : String
  status : String
  /-- `updatedAt`, milliseconds since epoch. -/
  updatedAt : Nat
  clientPhone : String
  deriving DecidableEq, Repr

def INACTIVITY_TIMEOUT : Nat := 2 * 60 * 1000

/-- Outcomes of the external calls made while closing one conversation:
the liveness probe (which may itself throw), the closing-message send, and
the two `conversation.update` attempts (main path and catch path). -/
structure CloseOracle where
  isConnected : Except Unit Bool
  sendOk : Bool
  updateOk : Bool
  catchUpdateOk : Bool
  deriving DecidableEq, Repr

/-- `findInactiveConversations()`: `status: 'ACTIVE', updatedAt < cutoff`. -/
def findInactiveConversations (convs : List ConvRec) (now : Nat) : List ConvRec :=
  convs.filter (fun c =>
    c.status == "ACTIVE" && decide (c.updatedAt < now - INACTIVITY_TIMEOUT))

structure CloseResult where
  conv : ConvRec
  sendAttempted : Bool
  deriving DecidableEq, Repr

def finishConv (c : ConvRec) (now : Nat) : ConvRec :=
  { c with status := "FINISHED", updatedAt := now }

/-- `closeInactiveConversation(conversation)`. -/
def closeInactiveConversation (now : Nat) (o : CloseOracle) (c : ConvRec) :
    CloseResult :=
  match o.isConnected with
  | .error _ =>
    -- liveness probe threw → catch: still try to mark FINISHED
    if o.catchUpdateOk then { conv := finishConv c now, sendAttempted := false }
    else { conv := c, sendAttempted := false }
  | .ok connected =>
    if connected then
      if o.sendOk then
        if o.updateOk then { conv := finishConv c now, sendAttempted := true }
        else if o.catchUpdateOk then { conv := finishConv c now, sendAttempted := true }
        else { conv := c, sendAttempted := true }
      else
        -- send threw → catch: still try to mark FINISHED
        if o.catchUpdateOk then { conv := finishConv c now, sendAttempted := true }
        else { conv := c, sendAttempted := true }
    else
      if o.updateOk then { conv := finishConv c now, sendAttempted := false }
      else if o.catchUpdateOk then { conv := finishConv c now, sendAttempted := false }
      else { conv := c, sendAttempted := false }

/-- One pass of `checkInactiveConversations()`. -/
def checkInactiveConversations (now : Nat) (oracleOf : ConvRec → CloseOracle)
    (convs : List ConvRec) : List CloseResult :=
  (findInactiveConversations convs now).map
    (fun c => closeInactiveConversation now (oracleOf c) c)

end ConvMonitor

/-! ## WhatsApp service (`src/whatsapp/whatsapp.service.ts`) -/

namespace WaService

/-- A `whatsAppSession` row (the columns the reconnection sweep reads). -/
structure WaSession where
  id : String
  active : Bool
  status : String
  error : Option String
  deriving DecidableEq, Repr

/-- `disconnectSession(sessionId)`: manual disconnect marks the session
DISCONNECTED with the `'Manual disconnect'` marker in `error`. -/
def disconnectSession (s : WaSession) : WaSession :=
  { s with status := "DISCONNECTED", error := some "Manual disconnect" }

/-- The `where` filter of `checkAndReconnectDisconnectedSessions`:
`active: true, status: 'DISCONNECTED', error: { not: 'Manual disconnect' }`.
(The SQL `not` filter does not match a NULL `error`.) -/
def sweepSelects (s : WaSession) : Bool :=
  s.active && s.status == "DISCONNECTED" &&
    (match s.error with
     | none => false
     | some e => e != "Manual disconnect")

/-- One sweep of `checkAndReconnectDisconnectedSessions` acting on one
session: selected sessions are set to CONNECTING and re-initialized
(`reconnectError = some msg` models a failed attempt, which puts the session
back to DISCONNECTED with that error); unselected sessions are untouched. -/
def sweepStep (reconnectError : Option String) (s : WaSession) : WaSession :=
  if sweepSelects s then
    match reconnectError with
    | some msg => { s with status := "DISCONNECTED", error := some msg }
    | none => { s with status := "CONNECTING", error := none }
  else s

/-- Repeated sweep intervals, each with its own reconnection outcome. -/
def sweepRuns (outcomes : List (Option String)) (s : WaSession) : WaSession :=
  outcomes.foldl (fun st oc => sweepStep oc st) s

/-- `isGroupPhoneNumber(phoneNumber)`. -/
def isGroupPhoneNumber (phoneNumber : String) : Bool :=
  jsIncludes phoneNumber "@g.us" || jsIncludes phoneNumber "group"

/-- A call handed to the underlying transport provider. -/
inductive TransportCall
  | text (phone msg : String)
  | template (phone name : String) (params : List String)
  | media (phone mediaType url : String) (caption : Option String)
  deriving DecidableEq, Repr

/-- State consulted by the send paths after the group check (provider
initialized and transport live); the steps behind it are abstracted to the
two booleans the code branches on. -/
structure SendCtx where
  providerReady : Bool
  connected : Bool
  deriving DecidableEq, Repr

/-- `sendMessage(phoneNumber, message)`: result and the transport calls made. -/
def sendMessage (ctx : SendCtx) (phoneNumber message : String) :
    Except String Unit × List TransportCall :=
  if isGroupPhoneNumber phoneNumber then
    (.error "Sending messages to groups is not allowed", [])
  else if !ctx.providerReady then
    (.error "WhatsApp provider not initialized", [])
  else if !ctx.connected then
    (.error "WhatsApp connection is not available. Please check the connection status.", [])
  else (.ok (), [.text phoneNumber message])

/-- `sendTemplateMessage(phoneNumber, templateName, parameters)`. -/
def sendTemplateMessage (ctx : SendCtx) (phoneNumber templateName : String)
    (parameters : List String) : Except String Unit × List TransportCall :=
  if isGroupPhoneNumber phoneNumber then
    (.error "Sending template messages to groups is not allowed", [])
  else if !ctx.providerReady then
    (.error "WhatsApp provider not initialized", [])
  else (.ok (), [.template phoneNumber templateName parameters])

/-- `sendMediaMessage(phoneNumber, mediaType, mediaUrl, caption)`. -/
def sendMediaMessage (ctx : SendCtx) (phoneNumber mediaType mediaUrl : String)
    (caption : Option String) : Except String Unit × List TransportCall :=
  if isGroupPhoneNumber phoneNumber then
    (.error "Sending media messages to groups is not allowed", [])
  else if !ctx.providerReady then
    (.error "WhatsApp provider not initialized", [])
  else (.ok (), [.media phoneNumber mediaType mediaUrl caption])

/-- The in-memory fields `initializeProvider` consults: whether
`this.whatsappProvider` exists, whether it reports ready
(`isProviderInitialized()` / `isReady()`), and the `isInitializing` flag. -/
structure InitState where
  providerExists : Bool
  providerReady : Bool
  isInitializing : Bool
  deriving DecidableEq, Repr

inductive InitOutcome
  /-- returned the already-ready provider without initializing -/
  | reusedExisting
  /-- waited for the in-flight attempt and returned its provider -/
  | adoptedInFlightResult
  /-- proceeded to create and initialize a new provider instance -/
  | startedNewAttempt
  deriving DecidableEq, Repr

/-- The guard sequence at the top of `initializeProvider()`: `s` is the state
when the call arrives and `sAfterWait` the state observed after the fixed
2-second wait (consulted only when an initialization was in flight). -/
def initializeProviderGuard (s sAfterWait : InitState) : InitOutcome :=
  if s.providerExists && s.providerReady then .reusedExisting
  else if s.isInitializing && sAfterWait.providerExists && sAfterWait.providerReady then
    .adoptedInFlightResult
  else
    let s2 := if s.isInitializing then sAfterWait else s
    if s2.providerExists && s2.providerReady then .reusedExisting
    else .startedNewAttempt

end WaService

/-! ## Baileys provider (`src/whatsapp/providers/baileys-whatsapp.provider.ts`)

The mutable fields of the provider object are a state record; the
`connection.update` handler, the scheduled-reconnection timer callback and a
successful `open` are state transitions.  Each transition also reports the
delay (ms) of the reconnection timer it armed, if any. -/

namespace Baileys

inductive SessStatus
  | CONNECTING | CONNECTED | DISCONNECTED | ERROR | QR_PENDING
  deriving DecidableEq, Repr

structure ProviderState where
  isConnected : Bool
  isReconnecting : Bool
  reconnectAttempts : Nat
  /-- whether the `this.reconnectTimeout` variable currently holds a handle -/
  reconnectTimeoutSet : Bool
  /-- whether `this.socket` is non-null with a non-null `user` -/
  hasSocketUser : Bool
  sessionStatus : SessStatus
  deriving DecidableEq, Repr

def maxReconnectAttempts : Nat := 5

/-- `const delays = [5000, 10000, 20000, 30000, 60000]`. -/
def reconnectDelays : List Nat := [5000, 10000, 20000, 30000, 60000]

/-- `scheduleReconnect()`: the synchronous part that increments the attempt
counter and arms the timer with `delays[min(attempts - 1, delays.length - 1)]`;
returns the armed delay. -/
def scheduleReconnect (s : ProviderState) : ProviderState × Option Nat :=
  if s.isReconnecting || s.reconnectTimeoutSet then (s, none)
  else if s.isConnected && s.hasSocketUser then (s, none)
  else
    let attempts := s.reconnectAttempts + 1
    let delay := reconnectDelays.getD (min (attempts - 1) (reconnectDelays.length - 1)) 60000
    ({ s with isReconnecting := true, reconnectAttempts := attempts,
              reconnectTimeoutSet := true }, some delay)

/-- The `connection === 'close'` branch of the `connection.update` handler.
`shouldReconnect` is `statusCode !== DisconnectReason.loggedOut`. -/
def onConnectionClose (shouldReconnect : Bool) (s : ProviderState) :
    ProviderState × Option Nat :=
  if shouldReconnect && decide (s.reconnectAttempts < maxReconnectAttempts) then
    if s.isReconnecting then (s, none)
    else scheduleReconnect { s with sessionStatus := .DISCONNECTED }
  else if decide (maxReconnectAttempts ≤ s.reconnectAttempts) then
    ({ s with isConnected := false, isReconnecting := false,
              sessionStatus := .ERROR }, none)
  else
    ({ s with isConnected := false, isReconnecting := false,
              sessionStatus := .DISCONNECTED }, none)

/-- The `connection === 'open'` branch: connected, reset the attempt counter,
clear the timers, persist CONNECTED. -/
def onConnectionOpen (s : ProviderState) : ProviderState :=
  { s with isConnected := true, isReconnecting := false, reconnectAttempts := 0,
           reconnectTimeoutSet := false, hasSocketUser := true,
           sessionStatus := .CONNECTED }

/-- The armed reconnection timer fires and `initialize()` throws: the callback
nulls the socket and `isConnected`; `initialize()` clears the stored timeout
handle at entry and sets the session CONNECTING before failing; the `catch`
re-schedules while attempts remain, else goes to ERROR; the `finally` nulls
the timeout variable (even when a new timer was just armed). -/
def onReconnectAttemptFailure (s : ProviderState) : ProviderState × Option Nat :=
  let s1 : ProviderState :=
    { s with hasSocketUser := false, isConnected := false,
             reconnectTimeoutSet := false, sessionStatus := .CONNECTING }
  if s1.reconnectAttempts < maxReconnectAttempts then
    let r := scheduleReconnect { s1 with isReconnecting := false }
    ({ r.1 with reconnectTimeoutSet := false }, r.2)
  else
    ({ s1 with isReconnecting := false, sessionStatus := .ERROR }, none)

/-! ### Inbound message pipeline (`messages.upsert` → callback) -/

structure MessageKey where
  fromMe : Bool
  remoteJid : Option String
  keyId : String
  deriving DecidableEq, Repr

structure UpsertMessage where
  key : MessageKey
  /-- `messageTimestamp`, seconds since epoch (absent on some stub events). -/
  messageTimestamp : Option Nat
  /-- the text `processNewMessages` extracts from the message content -/
  text : String
  deriving DecidableEq, Repr

/-- The filter applied inside the `messages.upsert` listener when
`connectionStartTime` (ms) is set: drop own messages and messages older than
the connection. -/
def upsertFilter (connectionStartTime : Option Nat) (msgs : List UpsertMessage) :
    List UpsertMessage :=
  match connectionStartTime with
  | none => msgs
  | some t =>
    msgs.filter (fun m =>
      !m.key.fromMe &&
        (match m.messageTimestamp with
         | none => false
         | some ts => decide (t ≤ ts * 1000)))

/-- `isGroupMessage(jid)`. -/
def isGroupMessage (jid : String) : Bool :=
  jsIncludes jid "@g.us"

/-- What `processNewMessages` + `handleNewMessage` do for one message:
`none` when the message is skipped, otherwise the `(phone, text)` the
registered message callback is invoked with. -/
def processOneMessage (m : UpsertMessage) : Option (String × String) :=
  if m.key.fromMe then none
  else
    match m.key.remoteJid with
    | none => none
    | some jid =>
      if jid == "" then none
      else if isGroupMessage jid then none
      -- handleNewMessage re-checks the group jid before invoking the callback
      else if isGroupMessage jid then none
      else some ((jsSplit jid '@').getD 0 "", m.text)

/-- The callback invocations produced by one `messages.upsert` event. -/
def handleMessagesUpsert (connectionStartTime : Option Nat)
    (msgs : List UpsertMessage) : List (String × String) :=
  (upsertFilter connectionStartTime msgs).filterMap processOneMessage

/-- A message the pipeline is required to discard: sent by the bot's own
account, or originating from a group jid. -/
def discardedMessage (m : UpsertMessage) : Bool :=
  m.key.fromMe ||
    (match m.key.remoteJid with
     | none => false
     | some jid => isGroupMessage jid)

end Baileys

/-! ## Concrete fixtures

A small dialogue graph (a MESSAGE greeting node whose default connection leads
to an OPTION node with options A/B/C), an OPTION node whose single option text
is a proper substring of an input, and a pair of idle conversations. -/

namespace FlowFix

open ChatbotFlow

def optA : FlowOption :=
  { id := "oA", text := "A", targetNodeId := some "nA", connectionTargetId := none }

def optB : FlowOption :=
  { id := "oB", text := "B", targetNodeId := some "nB", connectionTargetId := none }

def optC : FlowOption :=
  { id := "oC", text := "C", targetNodeId := some "nC", connectionTargetId := none }

def nA : FlowNode :=
  { id := "nA", nodeType := "MESSAGE", message := "ta", options := [],
    outgoingConnections := [] }

def nB : FlowNode :=
  { id := "nB", nodeType := "MESSAGE", message := "tb", options := [],
    outgoingConnections := [] }

def nC : FlowNode :=
  { id := "nC", nodeType := "MESSAGE", message := "tc", options := [],
    outgoingConnections := [] }

def optNode : FlowNode :=
  { id := "n2", nodeType := "OPTION", message := "Escolha uma opção:",
    options := [optA, optB, optC], outgoingConnections := [] }

def msgNode : FlowNode :=
  { id := "n1", nodeType := "MESSAGE", message := "Bem-vindo!", options := [],
    outgoingConnections := [{ condition := none, targetNodeId := some "n2" }] }

def store : FlowStore := { nodes := [msgNode, optNode, nA, nB, nC] }

/-- Conversation whose cursor is on the MESSAGE node. -/
def dbAtMessage : Db :=
  { conversation := some { id := "c1", hasCurrentFlow := true, currentNodeId := some "n1" },
    store := store }

/-- Conversation whose cursor is on the OPTION node. -/
def dbAtOption : Db :=
  { conversation := some { id := "c1", hasCurrentFlow := true, currentNodeId := some "n2" },
    store := store }

/-- OPTION node whose single option text `"ok"` is a proper substring of the
input `"okay"`. -/
def okOption : FlowOption :=
  { id := "o1", text := "ok", targetNodeId := some "nA", connectionTargetId := none }

def okNode : FlowNode :=
  { id := "n9", nodeType := "OPTION", message := "m", options := [okOption],
    outgoingConnections := [] }

def okStore : FlowStore := { nodes := [okNode, nA] }

end FlowFix

namespace ConvMonitorFix

def cLive : ConvMonitor.ConvRec :=
  { id := "c1", status := "ACTIVE", updatedAt := 0, clientPhone := "5511111" }

def cDead : ConvMonitor.ConvRec :=
  { id := "c2", status := "ACTIVE", updatedAt := 0, clientPhone := "5522222" }

/-- Channel live for `c1` (whose closing send then fails), not live for `c2`;
all status updates succeed. -/
def oracleOf (c : ConvMonitor.ConvRec) : ConvMonitor.CloseOracle :=
  if c.id == "c1" then
    { isConnected := .ok true, sendOk := false, updateOk := true, catchUpdateOk := true }
  else
    { isConnected := .ok false, sendOk := true, updateOk := true, catchUpdateOk := true }

end ConvMonitorFix

/-! ## Helper lemmas -/

namespace ChatbotFlow

/-- `find?` returns the first element satisfying the predicate. -/
theorem find?_of_first {α : Type} (p : α → Bool) :
    ∀ (l : List α) (i : Nat) (a : α), l.get? i = some a → p a = true →
      (∀ j, j < i → ∀ b, l.get? j = some b → p b = false) →
      l.find? p = some a
  | [], i, a, h, _, _ => by simp at h
  | x :: xs, 0, a, h, hp, _ => by
    simp at h
    subst h
    simp [List.find?_cons, hp]
  | x :: xs, i + 1, a, h, hp, hmin => by
    have hx : p x = false := hmin 0 (Nat.succ_pos i) x rfl
    have ih := find?_of_first p xs i a (by simpa using h) hp
      (fun j hj b hb => hmin (j + 1) (by omega) b (by simpa using hb))
    simp [List.find?_cons, hx, ih]

/-- Every failing run of the flow engine leaves the persisted state
untouched: the engine's only writes are the cursor updates, and each is the
last effect before its path returns. -/
theorem processMessageRun_error_db {db : Db} {o : FlowOracle} {msg : String}
    {e : Unit} {db' : Db}
    (h : processMessageRun db o msg = (.error e, db')) : db' = db := by
  unfold processMessageRun at h
  split at h
  · exact (Prod.mk.injEq _ _ _ _ ▸ h).2.symm
  · split at h
    · simp at h
    · split at h
      · simp at h
      · split at h
        · simp at h
        · split at h
          · exact (Prod.mk.injEq _ _ _ _ ▸ h).2.symm
          · split at h
            · split at h
              · split at h
                · exact (Prod.mk.injEq _ _ _ _ ▸ h).2.symm
                · simp at h
              · split at h
                · exact (Prod.mk.injEq _ _ _ _ ▸ h).2.symm
                · simp at h
            · simp at h

end ChatbotFlow

namespace ConvMonitor

/-- When the status update succeeds (on whichever path runs), the conversation
ends FINISHED whatever the liveness probe and the send did. -/
theorem close_status_finished (now : Nat) (o : CloseOracle) (c : ConvRec)
    (h1 : o.updateOk = true) (h2 : o.catchUpdateOk = true) :
    (closeInactiveConversation now o c).conv.status = "FINISHED" := by
  unfold closeInactiveConversation
  rcases o.isConnected with _ | conn
  · simp [h2, finishConv]
  · rcases conn with _ | _ <;>
      rcases hs : o.sendOk with _ | _ <;>
        simp [h1, h2, hs, finishConv]

end ConvMonitor

namespace Baileys

/-- A message sent by the bot itself or originating from a group jid is
skipped by the message pipeline. -/
theorem processOneMessage_eq_none {m : UpsertMessage}
    (h : discardedMessage m = true) : processOneMessage m = none := by
  unfold discardedMessage at h
  unfold processOneMessage
  rcases hf : m.key.fromMe with _ | _
  · simp [hf] at h
    rcases hj : m.key.remoteJid with _ | jid
    · simp [hf, hj]
    · simp [hj] at h
      simp [hf, hj, h]
  · simp [hf]

end Baileys

/-! ## Claims -/

/-- C1 counterexample: a successful CONNECTED transition resets the attempt
counter to 0, but a recoverable unexpected close handled right after it arms
no reconnection timer at all — the close branch never clears `isConnected`,
and `scheduleReconnect`'s already-connected guard (`isConnected && socket &&
socket.user`, all still set after `open`) returns without arming — so the
claimed renewed 5-second first delay never materializes after a CONNECTED
transition. -/
theorem C1_connected_close_counterexample :
    (Baileys.onConnectionOpen
        ⟨false, false, 3, false, false, .DISCONNECTED⟩).reconnectAttempts = 0 ∧
    (Baileys.onConnectionOpen
        ⟨false, false, 3, false, false, .DISCONNECTED⟩).isConnected = true ∧
    (Baileys.onConnectionOpen
        ⟨false, false, 3, false, false, .DISCONNECTED⟩).hasSocketUser = true ∧
    (Baileys.onConnectionClose true
        (Baileys.onConnectionOpen ⟨false, false, 3, false, false, .DISCONNECTED⟩)).2 =
      none := by
  decide

/-- C1 (amended): on a recoverable unexpected close handled while no
reconnection is already scheduled or in progress and the provider does not
consider itself connected, the armed delays for attempts 1..5 are 5s, 10s,
20s, 30s, 60s (the fixed `reconnectDelays` table, indexed by the previous
attempt count); a failed scheduled attempt likewise arms the next delay of
the table; once the 5-attempt cap is reached, both a further close and a
further attempt failure transition the session to ERROR and arm nothing; the
`open` transition resets the attempt counter to 0 and persists CONNECTED —
but a recoverable close handled while the provider still holds a connected
socket (the state right after CONNECTED) arms no reconnection at all, so the
renewed 5-second first delay applies only to a close handled once the
provider no longer considers itself connected. -/
theorem C1_reconnect_backoff :
    (∀ s : Baileys.ProviderState,
      s.isReconnecting = false →
      s.reconnectTimeoutSet = false →
      (s.isConnected && s.hasSocketUser) = false →
      s.reconnectAttempts < Baileys.maxReconnectAttempts →
      (Baileys.onConnectionClose true s).2 =
          some (Baileys.reconnectDelays.getD s.reconnectAttempts 60000) ∧
      (Baileys.onConnectionClose true s).1.reconnectAttempts =
          s.reconnectAttempts + 1 ∧
      (Baileys.onConnectionClose true s).1.sessionStatus = .DISCONNECTED) ∧
    Baileys.reconnectDelays = [5000, 10000, 20000, 30000, 60000] ∧
    (∀ s : Baileys.ProviderState,
      s.reconnectAttempts < Baileys.maxReconnectAttempts →
      (Baileys.onReconnectAttemptFailure s).2 =
          some (Baileys.reconnectDelays.getD s.reconnectAttempts 60000) ∧
      (Baileys.onReconnectAttemptFailure s).1.reconnectAttempts =
          s.reconnectAttempts + 1) ∧
    (∀ s : Baileys.ProviderState,
      Baileys.maxReconnectAttempts ≤ s.reconnectAttempts →
      (Baileys.onConnectionClose true s).2 = none ∧
      (Baileys.onConnectionClose true s).1.sessionStatus = .ERROR ∧
      (Baileys.onReconnectAttemptFailure s).2 = none ∧
      (Baileys.onReconnectAttemptFailure s).1.sessionStatus = .ERROR) ∧
    (∀ s : Baileys.ProviderState,
      (Baileys.onConnectionOpen s).reconnectAttempts = 0 ∧
      (Baileys.onConnectionOpen s).sessionStatus = .CONNECTED) ∧
    (∀ s : Baileys.ProviderState,
      (s.isConnected && s.hasSocketUser) = true →
      (Baileys.onConnectionClose true s).2 = none) := by
  refine ⟨?_, rfl, ?_, ?_, ?_, ?_⟩
  · intro s h1 h2 h3 h4
    have h4' : s.reconnectAttempts < 5 := by
      simpa [Baileys.maxReconnectAttempts] using h4
    have hmin : min s.reconnectAttempts (Baileys.reconnectDelays.length - 1) =
        s.reconnectAttempts := by
      simp [Baileys.reconnectDelays]
      omega
    simp [Baileys.onConnectionClose, Baileys.scheduleReconnect, h1, h2, h3, h4, hmin]
  · intro s h
    have h' : s.reconnectAttempts < 5 := by
      simpa [Baileys.maxReconnectAttempts] using h
    have hmin : min s.reconnectAttempts (Baileys.reconnectDelays.length - 1) =
        s.reconnectAttempts := by
      simp [Baileys.reconnectDelays]
      omega
    simp [Baileys.onReconnectAttemptFailure, Baileys.scheduleReconnect, h, hmin]
  · intro s h
    have h' : ¬ s.reconnectAttempts < Baileys.maxReconnectAttempts := by omega
    simp [Baileys.onConnectionClose, Baileys.onReconnectAttemptFailure, h, h']
  · intro s
    simp [Baileys.onConnectionOpen]
  · intro s h
    by_cases h5 : s.reconnectAttempts < Baileys.maxReconnectAttempts
    · by_cases hr : s.isReconnecting
      · simp [Baileys.onConnectionClose, h5, hr]
      · by_cases hts : s.reconnectTimeoutSet
        · simp [Baileys.onConnectionClose, Baileys.scheduleReconnect, h5, hr, hts]
        · simp [Baileys.onConnectionClose, Baileys.scheduleReconnect, h5, hr, hts, h]
    · have h5' : Baileys.maxReconnectAttempts ≤ s.reconnectAttempts :=
        Nat.le_of_not_lt h5
      simp [Baileys.onConnectionClose, h5, h5']

/-- C1 witness: a concrete trace — a first recoverable close arms 5000 ms;
four consecutive attempt failures arm 10000, 20000, 30000, 60000 ms; the
failure of attempt 5 arms nothing and goes to ERROR; `open` resets the
counter to 0; and a close handled while the provider still holds a connected
socket arms nothing. -/
theorem C1_reconnect_backoff_witness :
    (Baileys.onConnectionClose true ⟨false, false, 0, false, false, .DISCONNECTED⟩).2 =
      some 5000 ∧
    (Baileys.onConnectionClose true
        ⟨false, false, 0, false, false, .DISCONNECTED⟩).1.reconnectAttempts = 1 ∧
    (Baileys.onReconnectAttemptFailure ⟨false, true, 1, true, false, .DISCONNECTED⟩).2 =
      some 10000 ∧
    (Baileys.onReconnectAttemptFailure ⟨false, true, 2, false, false, .CONNECTING⟩).2 =
      some 20000 ∧
    (Baileys.onReconnectAttemptFailure ⟨false, true, 3, false, false, .CONNECTING⟩).2 =
      some 30000 ∧
    (Baileys.onReconnectAttemptFailure ⟨false, true, 4, false, false, .CONNECTING⟩).2 =
      some 60000 ∧
    (Baileys.onReconnectAttemptFailure ⟨false, true, 5, false, false, .CONNECTING⟩).2 =
      none ∧
    (Baileys.onReconnectAttemptFailure
        ⟨false, true, 5, false, false, .CONNECTING⟩).1.sessionStatus = .ERROR ∧
    (Baileys.onConnectionOpen
        ⟨false, true, 5, false, false, .CONNECTING⟩).reconnectAttempts = 0 ∧
    (Baileys.onConnectionClose true ⟨true, false, 0, false, true, .CONNECTED⟩).2 =
      none := by
  refine ⟨(C1_reconnect_backoff.1 _ rfl rfl (by decide) (by decide)).1,
    (C1_reconnect_backoff.1 _ rfl rfl (by decide) (by decide)).2.1,
    (C1_reconnect_backoff.2.2.1 _ (by decide)).1,
    (C1_reconnect_backoff.2.2.1 _ (by decide)).1,
    (C1_reconnect_backoff.2.2.1 _ (by decide)).1,
    (C1_reconnect_backoff.2.2.1 _ (by decide)).1,
    (C1_reconnect_backoff.2.2.2.1 _ (by decide)).2.2.1,
    (C1_reconnect_backoff.2.2.2.1 _ (by decide)).2.2.2,
    (C1_reconnect_backoff.2.2.2.2.1 _).1,
    (C1_reconnect_backoff.2.2.2.2.2 _ (by decide))⟩

/-- C2 counterexample: on the concrete graph, the decision call made from the
MESSAGE node `"Bem-vindo!"` auto-advances the cursor into the OPTION node,
but the single response it returns is the OPTION node's prompt alone — its
text does not contain the MESSAGE node's text, contradicting the claimed
combined (greeting + options) response. -/
theorem C2_combined_response_counterexample :
    FlowFix.msgNode.nodeType = "MESSAGE" ∧
    FlowFix.msgNode.message = "Bem-vindo!" ∧
    FlowFix.optNode.nodeType = "OPTION" ∧
    ChatbotFlow.determineNextNode FlowFix.store false FlowFix.msgNode "oi" =
      .ok (some FlowFix.optNode) ∧
    (ChatbotFlow.processMessage FlowFix.dbAtMessage ChatbotFlow.noFlowFailure "oi").2.cursor =
      some "n2" ∧
    (ChatbotFlow.processMessage FlowFix.dbAtMessage ChatbotFlow.noFlowFailure "oi").1.text =
      "Escolha uma opção:" ∧
    jsIncludes
      (ChatbotFlow.processMessage FlowFix.dbAtMessage ChatbotFlow.noFlowFailure "oi").1.text
      "Bem-vindo!" = false := by
  decide

/-- C2 (amended): when the current node is MESSAGE-kind and the resolved next
node is OPTION-kind, the single decision call advances the cursor exactly one
node (to the OPTION node) and returns the OPTION node's rendering — its
options prompt — while the MESSAGE node's rendered text is discarded rather
than combined into the response. -/
theorem C2_auto_advance_amended (db : ChatbotFlow.Db)
    (conv : ChatbotFlow.Conversation) (node nn : ChatbotFlow.FlowNode)
    (msg : String)
    (hc : db.conversation = some conv)
    (hf : conv.hasCurrentFlow = true)
    (hn : conv.currentNodeId.bind db.store.find? = some node)
    (hm : node.nodeType = "MESSAGE")
    (hd : ChatbotFlow.determineNextNode db.store false node msg = .ok (some nn))
    (ho : nn.nodeType = "OPTION") :
    ChatbotFlow.processMessage db ChatbotFlow.noFlowFailure msg =
      (ChatbotFlow.processNodeMessage nn, db.setCursor nn.id) := by
  simp [ChatbotFlow.processMessage, ChatbotFlow.processMessageRun,
    ChatbotFlow.noFlowFailure, hc, hf, hn, hm, hd, ho]

/-- C2 witness: the amended auto-advance behaviour on the concrete graph. -/
theorem C2_auto_advance_witness :
    ChatbotFlow.processMessage FlowFix.dbAtMessage ChatbotFlow.noFlowFailure "oi" =
      (ChatbotFlow.processNodeMessage FlowFix.optNode,
        FlowFix.dbAtMessage.setCursor "n2") :=
  C2_auto_advance_amended FlowFix.dbAtMessage
    { id := "c1", hasCurrentFlow := true, currentNodeId := some "n1" }
    FlowFix.msgNode FlowFix.optNode "oi" rfl rfl (by decide) rfl (by decide) rfl

/-- C3: for an OPTION node with a non-empty option list — (1) an input whose
`parseInt` value `n` satisfies `1 ≤ n ≤ len(options)` selects `options[n-1]`
and resolves to that option's target node; (2) an input that case-insensitively
matches the text of the first matching option in display order resolves to
that option's target; (3) an input that is no button payload, no in-range
number and matches no option text leaves the decision at `none`, keeps the
cursor unchanged and re-renders the same option list without an error;
(4) when a target is resolved from an OPTION node, `processMessage` persists
the cursor onto it. -/
theorem C3_option_input_resolution :
    (∀ (st : ChatbotFlow.FlowStore) (node tn : ChatbotFlow.FlowNode)
       (opt : ChatbotFlow.FlowOption) (msg tid : String) (n : Int),
      node.nodeType = "OPTION" →
      jsStartsWith msg "option_" = false →
      parseIntJS (jsTrim msg) = some n →
      0 < n → n ≤ (node.options.length : Int) →
      node.options.get? (n.toNat - 1) = some opt →
      opt.targetNodeId = some tid →
      st.find? tid = some tn →
      ChatbotFlow.determineNextNode st false node msg = .ok (some tn)) ∧
    (∀ (st : ChatbotFlow.FlowStore) (node tn : ChatbotFlow.FlowNode)
       (opt : ChatbotFlow.FlowOption) (msg tid : String) (i : Nat),
      node.nodeType = "OPTION" →
      jsStartsWith msg "option_" = false →
      parseIntJS (jsTrim msg) = none →
      node.options.get? i = some opt →
      ChatbotFlow.textMatches opt msg = true →
      (∀ j, j < i → ∀ o', node.options.get? j = some o' →
        ChatbotFlow.textMatches o' msg = false) →
      opt.targetNodeId = some tid →
      st.find? tid = some tn →
      ChatbotFlow.determineNextNode st false node msg = .ok (some tn)) ∧
    (∀ (db : ChatbotFlow.Db) (conv : ChatbotFlow.Conversation)
       (node : ChatbotFlow.FlowNode) (msg : String),
      db.conversation = some conv →
      conv.hasCurrentFlow = true →
      conv.currentNodeId.bind db.store.find? = some node →
      node.nodeType = "OPTION" →
      node.options ≠ [] →
      jsStartsWith msg "option_" = false →
      (∀ k : Int, parseIntJS (jsTrim msg) = some k →
        ¬(0 < k ∧ k ≤ (node.options.length : Int))) →
      (∀ o ∈ node.options, ChatbotFlow.textMatches o msg = false) →
      ChatbotFlow.determineNextNode db.store false node msg = .ok none ∧
      ChatbotFlow.processMessage db ChatbotFlow.noFlowFailure msg =
        (ChatbotFlow.processNodeMessage node, db)) ∧
    (∀ (db : ChatbotFlow.Db) (conv : ChatbotFlow.Conversation)
       (node tn : ChatbotFlow.FlowNode) (msg : String),
      db.conversation = some conv →
      conv.hasCurrentFlow = true →
      conv.currentNodeId.bind db.store.find? = some node →
      node.nodeType = "OPTION" →
      ChatbotFlow.determineNextNode db.store false node msg = .ok (some tn) →
      ChatbotFlow.processMessage db ChatbotFlow.noFlowFailure msg =
        (ChatbotFlow.processNodeMessage node, db.setCursor tn.id)) := by
  refine ⟨?_, ?_, ?_, ?_⟩
  · intro st node tn opt msg tid n ht hs hp hn1 hn2 hget htgt hfind
    have hget' : node.options[n.toNat - 1]? = some opt := by simpa using hget
    have hsel : ChatbotFlow.selectOption node.options msg = some opt := by
      simp [ChatbotFlow.selectOption, hs, hp, if_pos (And.intro hn1 hn2), hget']
    simp [ChatbotFlow.determineNextNode, ht, hsel, htgt, hfind]
  · intro st node tn opt msg tid i ht hs hp hget hmatch hfirst htgt hfind
    have hsel : ChatbotFlow.selectOption node.options msg = some opt := by
      simp [ChatbotFlow.selectOption, hs, hp]
      exact ChatbotFlow.find?_of_first _ node.options i opt hget hmatch hfirst
    simp [ChatbotFlow.determineNextNode, ht, hsel, htgt, hfind]
  · intro db conv node msg hc hf hn ht hne hs hnum hnomatch
    have hfindnone : node.options.find? (fun o => ChatbotFlow.textMatches o msg) = none :=
      List.find?_eq_none.2 (fun o ho => by simp [hnomatch o ho])
    have hsel : ChatbotFlow.selectOption node.options msg = none := by
      rcases hp : parseIntJS (jsTrim msg) with _ | k
      · simp [ChatbotFlow.selectOption, hs, hp, hfindnone]
      · simp [ChatbotFlow.selectOption, hs, hp, if_neg (hnum k hp), hfindnone]
    have hd : ChatbotFlow.determineNextNode db.store false node msg = .ok none := by
      simp [ChatbotFlow.determineNextNode, ht, hsel, hne]
    refine ⟨hd, ?_⟩
    simp [ChatbotFlow.processMessage, ChatbotFlow.processMessageRun,
      ChatbotFlow.noFlowFailure, hc, hf, hn, ht, hd]
  · intro db conv node tn msg hc hf hn ht hd
    simp [ChatbotFlow.processMessage, ChatbotFlow.processMessageRun,
      ChatbotFlow.noFlowFailure, hc, hf, hn, ht, hd]

/-- C3 witness: on options `["A","B","C"]` input `"2"` resolves to B's target,
input `"b"` also resolves to B's target, input `"zzz"` leaves the node
unchanged and re-renders it, and the `"2"` decision moves the cursor to B's
target node. -/
theorem C3_option_input_resolution_witness :
    ChatbotFlow.determineNextNode FlowFix.store false FlowFix.optNode "2" =
      .ok (some FlowFix.nB) ∧
    ChatbotFlow.determineNextNode FlowFix.store false FlowFix.optNode "b" =
      .ok (some FlowFix.nB) ∧
    ChatbotFlow.determineNextNode FlowFix.store false FlowFix.optNode "zzz" =
      .ok none ∧
    ChatbotFlow.processMessage FlowFix.dbAtOption ChatbotFlow.noFlowFailure "zzz" =
      (ChatbotFlow.processNodeMessage FlowFix.optNode, FlowFix.dbAtOption) ∧
    ChatbotFlow.processMessage FlowFix.dbAtOption ChatbotFlow.noFlowFailure "2" =
      (ChatbotFlow.processNodeMessage FlowFix.optNode,
        FlowFix.dbAtOption.setCursor "nB") := by
  have hnum := C3_option_input_resolution.1 FlowFix.store FlowFix.optNode FlowFix.nB
    FlowFix.optB "2" "nB" 2 rfl (by decide) (by decide) (by decide) (by decide)
    (by decide) rfl (by decide)
  have htext := C3_option_input_resolution.2.1 FlowFix.store FlowFix.optNode FlowFix.nB
    FlowFix.optB "b" "nB" 1 rfl (by decide) (by decide) (by decide) (by decide)
    (by
      intro j hj o' hb
      have hj0 : j = 0 := by omega
      subst hj0
      have : o' = FlowFix.optA := by
        have := hb
        simp [FlowFix.optNode] at this
        exact this.symm
      subst this
      decide)
    rfl (by decide)
  have hstay := C3_option_input_resolution.2.2.1 FlowFix.dbAtOption
    { id := "c1", hasCurrentFlow := true, currentNodeId := some "n2" }
    FlowFix.optNode "zzz" rfl rfl (by decide) rfl (by decide) (by decide)
    (by
      intro k hk
      rw [show parseIntJS (jsTrim "zzz") = none by decide] at hk
      cases hk)
    (by decide)
  have hadv := C3_option_input_resolution.2.2.2 FlowFix.dbAtOption
    { id := "c1", hasCurrentFlow := true, currentNodeId := some "n2" }
    FlowFix.optNode FlowFix.nB "2" rfl rfl (by decide) rfl (by decide)
  exact ⟨hnum, htext, hstay.1, hstay.2, hadv⟩

/-- C4 counterexample: for the option with text `"ok"` and the input
`"okay"`, containment holds in the claimed "either direction" (the input
contains the option's text), yet the engine's matcher selects nothing and the
decision leaves the node unchanged — the code checks containment of the input
in the option's text only, never the reverse. -/
theorem C4_text_match_direction_counterexample :
    jsIncludes (jsToLower "okay") (jsToLower FlowFix.okOption.text) = true ∧
    ChatbotFlow.textMatches FlowFix.okOption "okay" = false ∧
    ChatbotFlow.selectOption [FlowFix.okOption] "okay" = none ∧
    ChatbotFlow.determineNextNode FlowFix.okStore false FlowFix.okNode "okay" =
      .ok none := by
  decide

/-- C4 (amended): for a non-payload, non-numeric input, text matching selects
the first option in display order whose text case-insensitively equals the
input or case-insensitively contains the input; containment of the option's
text inside the input is not considered; when no option matches, nothing is
selected. -/
theorem C4_text_match_amended :
    (∀ (options : List ChatbotFlow.FlowOption) (msg : String) (i : Nat)
       (opt : ChatbotFlow.FlowOption),
      options.get? i = some opt →
      ChatbotFlow.textMatches opt msg = true →
      (∀ j, j < i → ∀ o', options.get? j = some o' →
        ChatbotFlow.textMatches o' msg = false) →
      options.find? (fun o => ChatbotFlow.textMatches o msg) = some opt) ∧
    (∀ (options : List ChatbotFlow.FlowOption) (msg : String),
      (∀ o ∈ options, ChatbotFlow.textMatches o msg = false) →
      options.find? (fun o => ChatbotFlow.textMatches o msg) = none) ∧
    (∀ (node : ChatbotFlow.FlowNode) (msg : String),
      jsStartsWith msg "option_" = false →
      parseIntJS (jsTrim msg) = none →
      ChatbotFlow.selectOption node.options msg =
        node.options.find? (fun o => ChatbotFlow.textMatches o msg)) ∧
    (∀ (o : ChatbotFlow.FlowOption) (msg : String),
      ChatbotFlow.textMatches o msg =
        (jsToLower o.text == jsToLower msg
          || jsIncludes (jsToLower o.text) (jsToLower msg))) := by
  refine ⟨?_, ?_, ?_, ?_⟩
  · intro options msg i opt hget hmatch hfirst
    exact ChatbotFlow.find?_of_first _ options i opt hget hmatch hfirst
  · intro options msg h
    exact List.find?_eq_none.2 (fun o ho => by simp [h o ho])
  · intro node msg hs hp
    simp [ChatbotFlow.selectOption, hs, hp]
  · intro o msg
    rfl

/-- C4 witness: `"b"` selects option B first in display order; `"okay"`
matches nothing against the single option `"ok"`; the selection function
coincides with the first-match text matcher for a non-payload, non-numeric
input. -/
theorem C4_text_match_amended_witness :
    ([FlowFix.optA, FlowFix.optB, FlowFix.optC].find?
        (fun o => ChatbotFlow.textMatches o "b")) = some FlowFix.optB ∧
    ([FlowFix.okOption].find? (fun o => ChatbotFlow.textMatches o "okay")) = none ∧
    ChatbotFlow.selectOption FlowFix.okNode.options "okay" =
      FlowFix.okNode.options.find? (fun o => ChatbotFlow.textMatches o "okay") := by
  refine ⟨?_, ?_, ?_⟩
  · exact C4_text_match_amended.1 [FlowFix.optA, FlowFix.optB, FlowFix.optC] "b" 1
      FlowFix.optB (by decide) (by decide)
      (by
        intro j hj o' hb
        have hj0 : j = 0 := by omega
        subst hj0
        have : o' = FlowFix.optA := by
          have := hb
          simp at this
          exact this.symm
        subst this
        decide)
  · exact C4_text_match_amended.2.1 [FlowFix.okOption] "okay" (by decide)
  · exact C4_text_match_amended.2.2.1 FlowFix.okNode "okay" (by decide) (by decide)

/-- C5: when the conversation, its flow or its current node cannot be loaded,
or any of the engine's database operations throws, `processMessage` returns
the generic greeting, leaves the persisted state (in particular the cursor)
unchanged, and — being total by construction, the `catch` swallowing every
failure of the `try`-block — propagates no exception. -/
theorem C5_failure_fallback (db : ChatbotFlow.Db) (o : ChatbotFlow.FlowOracle)
    (msg : String)
    (h : (ChatbotFlow.processMessageRun db o msg).1 = .error ()
      ∨ db.conversation = none
      ∨ (∃ c, db.conversation = some c ∧
          (c.hasCurrentFlow = false ∨ c.currentNodeId.bind db.store.find? = none))) :
    ChatbotFlow.processMessage db o msg = (ChatbotFlow.getDefaultResponse, db) := by
  rcases h with h | h | ⟨c, hc, h⟩
  · have hrun : ChatbotFlow.processMessageRun db o msg =
        (.error (), (ChatbotFlow.processMessageRun db o msg).2) := by
      rcases hp : ChatbotFlow.processMessageRun db o msg with ⟨r, d⟩
      simp [hp] at h
      simp [h]
    have hdb := ChatbotFlow.processMessageRun_error_db hrun
    unfold ChatbotFlow.processMessage
    rw [hrun, hdb]
  · by_cases hf : o.findConvFails
    · simp [ChatbotFlow.processMessage, ChatbotFlow.processMessageRun, hf, h]
    · simp [ChatbotFlow.processMessage, ChatbotFlow.processMessageRun, hf, h]
  · by_cases hf : o.findConvFails
    · simp [ChatbotFlow.processMessage, ChatbotFlow.processMessageRun, hf, hc]
    · rcases h with h | h
      · simp [ChatbotFlow.processMessage, ChatbotFlow.processMessageRun, hf, hc, h]
      · by_cases hcf : c.hasCurrentFlow
        · simp [ChatbotFlow.processMessage, ChatbotFlow.processMessageRun, hf, hc, hcf, h]
        · simp [ChatbotFlow.processMessage, ChatbotFlow.processMessageRun, hf, hc, hcf]

/-- C5 witness: a conversation that cannot be loaded yields the generic
greeting and an unchanged state. -/
theorem C5_failure_fallback_witness :
    ChatbotFlow.processMessage
        { conversation := none, store := { nodes := [] } }
        ChatbotFlow.noFlowFailure "oi" =
      (ChatbotFlow.getDefaultResponse,
        { conversation := none, store := { nodes := [] } }) :=
  C5_failure_fallback _ _ _ (Or.inr (Or.inl rfl))

/-- C6: in one reaper pass, every ACTIVE conversation whose `updatedAt` is
older than the inactivity threshold is processed and — provided the status
update itself succeeds — ends FINISHED, whatever the liveness probe and the
closing send did (their failures are caught and do not prevent the
transition); and a closing message is attempted exactly when the liveness
probe reported the channel live. -/
theorem C6_reaper_closes_inactive :
    (∀ (now : Nat) (o : ConvMonitor.CloseOracle) (c : ConvMonitor.ConvRec),
      o.updateOk = true → o.catchUpdateOk = true →
      (ConvMonitor.closeInactiveConversation now o c).conv.status = "FINISHED") ∧
    (∀ (now : Nat) (o : ConvMonitor.CloseOracle) (c : ConvMonitor.ConvRec),
      (ConvMonitor.closeInactiveConversation now o c).sendAttempted = true →
      o.isConnected = .ok true) ∧
    (∀ (now : Nat) (oracleOf : ConvMonitor.ConvRec → ConvMonitor.CloseOracle)
       (convs : List ConvMonitor.ConvRec) (c : ConvMonitor.ConvRec),
      c ∈ convs → c.status = "ACTIVE" →
      c.updatedAt < now - ConvMonitor.INACTIVITY_TIMEOUT →
      (oracleOf c).updateOk = true → (oracleOf c).catchUpdateOk = true →
      ConvMonitor.closeInactiveConversation now (oracleOf c) c ∈
        ConvMonitor.checkInactiveConversations now oracleOf convs ∧
      (ConvMonitor.closeInactiveConversation now (oracleOf c) c).conv.status =
        "FINISHED") := by
  refine ⟨?_, ?_, ?_⟩
  · exact fun now o c h1 h2 => ConvMonitor.close_status_finished now o c h1 h2
  · intro now o c h
    unfold ConvMonitor.closeInactiveConversation at h
    rcases hic : o.isConnected with _ | conn
    · rw [hic] at h
      by_cases hcu : o.catchUpdateOk <;> simp [hcu] at h
    · rw [hic] at h
      rcases conn with _ | _
      · by_cases hu : o.updateOk <;> by_cases hcu : o.catchUpdateOk <;>
          simp [hu, hcu] at h
      · rfl
  · intro now oracleOf convs c hmem hact hold h1 h2
    constructor
    · unfold ConvMonitor.checkInactiveConversations
      refine List.mem_map.2 ⟨c, ?_, rfl⟩
      unfold ConvMonitor.findInactiveConversations
      refine List.mem_filter.2 ⟨hmem, ?_⟩
      simp [hact, hold]
    · exact ConvMonitor.close_status_finished now (oracleOf c) c h1 h2

/-- C6 witness: two conversations idle since the same instant both end
FINISHED in one pass; the closing message is attempted only for the one whose
channel is live — and for that one the send even fails, without preventing
the transition. -/
theorem C6_reaper_closes_inactive_witness :
    (ConvMonitor.closeInactiveConversation 300000
        (ConvMonitorFix.oracleOf ConvMonitorFix.cLive) ConvMonitorFix.cLive ∈
      ConvMonitor.checkInactiveConversations 300000 ConvMonitorFix.oracleOf
        [ConvMonitorFix.cLive, ConvMonitorFix.cDead]) ∧
    (ConvMonitor.closeInactiveConversation 300000
        (ConvMonitorFix.oracleOf ConvMonitorFix.cLive)
        ConvMonitorFix.cLive).conv.status = "FINISHED" ∧
    (ConvMonitor.closeInactiveConversation 300000
        (ConvMonitorFix.oracleOf ConvMonitorFix.cDead) ConvMonitorFix.cDead ∈
      ConvMonitor.checkInactiveConversations 300000 ConvMonitorFix.oracleOf
        [ConvMonitorFix.cLive, ConvMonitorFix.cDead]) ∧
    (ConvMonitor.closeInactiveConversation 300000
        (ConvMonitorFix.oracleOf ConvMonitorFix.cDead)
        ConvMonitorFix.cDead).conv.status = "FINISHED" ∧
    (ConvMonitor.closeInactiveConversation 300000
        (ConvMonitorFix.oracleOf ConvMonitorFix.cLive)
        ConvMonitorFix.cLive).sendAttempted = true ∧
    (ConvMonitor.closeInactiveConversation 300000
        (ConvMonitorFix.oracleOf ConvMonitorFix.cDead)
        ConvMonitorFix.cDead).sendAttempted = false := by
  have hLive := C6_reaper_closes_inactive.2.2 300000 ConvMonitorFix.oracleOf
    [ConvMonitorFix.cLive, ConvMonitorFix.cDead] ConvMonitorFix.cLive
    (by decide) rfl (by decide) (by decide) (by decide)
  have hDead := C6_reaper_closes_inactive.2.2 300000 ConvMonitorFix.oracleOf
    [ConvMonitorFix.cLive, ConvMonitorFix.cDead] ConvMonitorFix.cDead
    (by decide) rfl (by decide) (by decide) (by decide)
  exact ⟨hLive.1, hLive.2, hDead.1, hDead.2, by decide, by decide⟩

/-- C7: a manual disconnect stores the `'Manual disconnect'` marker; the
automatic reconnection sweep never selects a session carrying the marker and
leaves it untouched across any number of sweep intervals, whatever each
sweep's reconnection outcomes would have been. -/
theorem C7_manual_disconnect_never_swept (s : WaService.WaSession)
    (outcomes : List (Option String)) :
    WaService.sweepSelects (WaService.disconnectSession s) = false ∧
    WaService.sweepRuns outcomes (WaService.disconnectSession s) =
      WaService.disconnectSession s := by
  constructor
  · simp [WaService.sweepSelects, WaService.disconnectSession]
  · induction outcomes with
    | nil => rfl
    | cons oc rest ih =>
      have hstep : WaService.sweepStep oc (WaService.disconnectSession s) =
          WaService.disconnectSession s := by
        simp [WaService.sweepStep, WaService.sweepSelects, WaService.disconnectSession]
      simpa [WaService.sweepRuns, hstep] using ih

/-- C8: a destination containing `'@g.us'` or `'group'` is rejected by all
three outbound send operations before anything reaches the transport: each
returns the rejection error and makes no transport call. -/
theorem C8_group_send_rejected (ctx : WaService.SendCtx)
    (phone msg tname mediaType url : String) (params : List String)
    (caption : Option String)
    (h : (jsIncludes phone "@g.us" || jsIncludes phone "group") = true) :
    WaService.sendMessage ctx phone msg =
      (.error "Sending messages to groups is not allowed", []) ∧
    WaService.sendTemplateMessage ctx phone tname params =
      (.error "Sending template messages to groups is not allowed", []) ∧
    WaService.sendMediaMessage ctx phone mediaType url caption =
      (.error "Sending media messages to groups is not allowed", []) := by
  have hg : WaService.isGroupPhoneNumber phone = true := h
  refine ⟨?_, ?_, ?_⟩ <;>
    simp [WaService.sendMessage, WaService.sendTemplateMessage,
      WaService.sendMediaMessage, hg]

/-- C8 witness: the group jid `"5511@g.us"` is rejected by all three send
operations with no transport call. -/
theorem C8_group_send_rejected_witness :
    WaService.sendMessage ⟨true, true⟩ "5511@g.us" "hello" =
      (.error "Sending messages to groups is not allowed", []) ∧
    WaService.sendTemplateMessage ⟨true, true⟩ "5511@g.us" "tpl" [] =
      (.error "Sending template messages to groups is not allowed", []) ∧
    WaService.sendMediaMessage ⟨true, true⟩ "5511@g.us" "image" "http://x" none =
      (.error "Sending media messages to groups is not allowed", []) :=
  C8_group_send_rejected ⟨true, true⟩ "5511@g.us" "hello" "tpl" "image" "http://x"
    [] none (by decide)

/-- C9 counterexample: a request arriving while an initialization is in
flight (`isInitializing = true`) and still unfinished after the bounded wait
proceeds to start a second attempt — the claimed single-flight collapse does
not hold. -/
theorem C9_single_flight_counterexample :
    WaService.initializeProviderGuard ⟨false, false, true⟩ ⟨false, false, true⟩ =
      .startedNewAttempt ∧
    (⟨false, false, true⟩ : WaService.InitState).isInitializing = true := by
  decide

/-- C9 (amended): a request arriving while an initialization is in flight
waits the fixed 2-second bound; if the in-flight attempt has produced a ready
provider by then, that provider is adopted and no second attempt starts;
otherwise the request starts a second initialization attempt of its own. -/
theorem C9_bounded_wait_amended (s w : WaService.InitState)
    (h1 : s.isInitializing = true)
    (h2 : (s.providerExists && s.providerReady) = false) :
    ((w.providerExists && w.providerReady) = true →
      WaService.initializeProviderGuard s w = .adoptedInFlightResult) ∧
    ((w.providerExists && w.providerReady) = false →
      WaService.initializeProviderGuard s w = .startedNewAttempt) := by
  constructor <;> intro hw <;>
    simp [WaService.initializeProviderGuard, h1, h2, hw]

/-- C9 witness: with an attempt in flight, a ready provider after the wait is
adopted; an unfinished one leads to a second attempt. -/
theorem C9_bounded_wait_amended_witness :
    WaService.initializeProviderGuard ⟨false, false, true⟩ ⟨true, true, false⟩ =
      .adoptedInFlightResult ∧
    WaService.initializeProviderGuard ⟨false, false, true⟩ ⟨false, false, true⟩ =
      .startedNewAttempt :=
  ⟨(C9_bounded_wait_amended ⟨false, false, true⟩ ⟨true, true, false⟩ rfl
      (by decide)).1 (by decide),
   (C9_bounded_wait_amended ⟨false, false, true⟩ ⟨false, false, true⟩ rfl
      (by decide)).2 (by decide)⟩

/-- C10: messages sent by the bot's own account (`fromMe`) and messages from
group jids (containing `'@g.us'`) contribute nothing to the inbound pipeline:
the callback invocations of a `messages.upsert` event equal those of the same
event with all such messages removed — so for them no flow decision, no
persistence and no reply can follow. -/
theorem C10_fromMe_and_group_messages_discarded (connStart : Option Nat)
    (msgs : List Baileys.UpsertMessage) :
    Baileys.handleMessagesUpsert connStart msgs =
      Baileys.handleMessagesUpsert connStart
        (msgs.filter (fun m => !Baileys.discardedMessage m)) := by
  unfold Baileys.handleMessagesUpsert Baileys.upsertFilter
  cases connStart with
  | none =>
    induction msgs with
    | nil => rfl
    | cons m rest ih =>
      by_cases hd : Baileys.discardedMessage m = true
      · simp [List.filter_cons, hd, List.filterMap_cons,
          Baileys.processOneMessage_eq_none hd, ih]
      · simp only [Bool.not_eq_true] at hd
        simp [List.filter_cons, hd, List.filterMap_cons, ih]
  | some t =>
    induction msgs with
    | nil => rfl
    | cons m rest ih =>
      by_cases hd : Baileys.discardedMessage m = true
      · have hfm : (!m.key.fromMe &&
            (match m.messageTimestamp with
             | none => false
             | some ts => decide (t ≤ ts * 1000))) = true →
            Baileys.processOneMessage m = none := fun _ =>
          Baileys.processOneMessage_eq_none hd
        by_cases hq : (!m.key.fromMe &&
            (match m.messageTimestamp with
             | none => false
             | some ts => decide (t ≤ ts * 1000))) = true
        · simp [List.filter_cons, hd, hq, List.filterMap_cons, hfm hq, ih]
        · simp only [Bool.not_eq_true] at hq
          simp [List.filter_cons, hd, hq, ih]
      · simp only [Bool.not_eq_true] at hd
        by_cases hq : (!m.key.fromMe &&
            (match m.messageTimestamp with
             | none => false
             | some ts => decide (t ≤ ts * 1000))) = true
        · simp [List.filter_cons, hd, hq, List.filterMap_cons, ih]
        · simp only [Bool.not_eq_true] at hq
          simp [List.filter_cons, hd, hq, ih]
